import Mathlib

/-!
Verification of the pyfar deprecation-policy mechanism and plot facade.

The repository ships two source files: `pyfar/plot/line.py` (the plot
facade) and `tests/test_deprecations.py` (the deprecation-policy test
suite).  The deprecation gate itself lives in library modules that are not
part of the shown sources, so the gate is modelled from the specification
(section 4.1 of the spec), constrained by what the test suite asserts; the
plot facade is embedded directly from `pyfar/plot/line.py`.
-/

namespace Pyfar

/-- Version token: a semantic-version triple used only for ordering
comparisons, as in `packaging.version.parse` applied to strings such as
`0.5.0` in the tests. -/
structure Version where
  major : Nat
  minor : Nat
  patch : Nat
deriving DecidableEq, Repr

/-- Standard major.minor.patch precedence: lexicographic strict order. -/
def Version.lt (a b : Version) : Bool :=
  decide (a.major < b.major ∨
    (a.major = b.major ∧ (a.minor < b.minor ∨
      (a.minor = b.minor ∧ a.patch < b.patch))))

/-- Non-strict version precedence. -/
def Version.le (a b : Version) : Bool :=
  Version.lt a b || decide (a = b)

/-- The two removal kinds of the error taxonomy of the spec, plus the third
shape exercised by `test_signal_len`: removing `len()` support surfaces as
a Python `TypeError` whose message contains "had no len()". -/
inductive RemovalError where
  | memberNotFound
  | invalidValue
  | typeErrorNoLen
deriving DecidableEq, Repr

/-- Category of a guarded symbol: a wholly removed function, method or
property; a removed accepted argument value; or removed `len()` support. -/
inductive DeprecationCategory where
  | removedSymbol
  | removedArgValue
  | removedLenSupport
deriving DecidableEq, Repr

/-- The removal error appropriate to a category, as asserted by the test
suite: `AttributeError` for removed symbols, `ValueError` for removed
argument values, and `TypeError` ("had no len()") for removed `len()`
support. -/
def errorOf : DeprecationCategory → RemovalError
  | .removedSymbol => .memberNotFound
  | .removedArgValue => .invalidValue
  | .removedLenSupport => .typeErrorNoLen

/-- Text carried by a removal error, as matched by the tests. -/
def errorText : RemovalError → String
  | .memberNotFound => "object has no attribute"
  | .invalidValue => "invalid value"
  | .typeErrorNoLen => "object of type Signal had no len()"

/-- Deprecation record, from the data model of the spec: symbol being
deprecated, warning-message pattern, full notice text, removal version,
category, and replacement guidance (empty when none). -/
structure DeprecationRecord where
  symbol : String
  pattern : String
  message : String
  removal : Version
  category : DeprecationCategory
  replacement : String
deriving DecidableEq, Repr

/-- Whether a character list occurs as a contiguous sublist of another. -/
def occursIn (pat : List Char) : List Char → Bool
  | [] => pat.isEmpty
  | c :: rest => pat.isPrefixOf (c :: rest) || occursIn pat rest

/-- Whether a notice text matches a documented pattern: the pattern occurs
as a substring, as in the pytest `match=` regular-expression search on the
escaped literals used by the tests. -/
def matchesPattern (text pat : String) : Bool :=
  occursIn pat.data text.data

/-- Gate decision: warn and execute, or refuse. -/
inductive GateDecision where
  | warnExecute
  | refuse
deriving DecidableEq, Repr

/-- Modelled from the spec: the deprecation gate of section 4.1, whose
implementation is not among the shown sources.  Its decision is a pure
function of the running version and the removal version of the symbol: if
running-version < removal-version it warns and executes, otherwise it
refuses. -/
def gate (current removal : Version) : GateDecision :=
  if Version.lt current removal then .warnExecute else .refuse

/-- Outcome of one guarded call: the notices emitted to the warning
channel of the caller, and either the normal result or a removal error. -/
structure CallResult (α : Type) where
  notices : List String
  outcome : Except RemovalError α
deriving Repr

/-- Modelled from the spec: one call through the deprecation gate (the
gate implementation is not among the shown sources).  Pre-cutover the call
emits the notice of the record once and performs the normal computation
unaltered; at or after the removal version it raises the removal error of
the category of the symbol and emits nothing. -/
def guardedCall (current : Version) (rec : DeprecationRecord)
    (normal : α) : CallResult α :=
  if Version.lt current rec.removal then
    { notices := [rec.message], outcome := .ok normal }
  else
    { notices := [], outcome := .error (errorOf rec.category) }

/-- Modelled from the spec: a guarded stateful operation such as a
deprecated property setter (the setter implementation is not among the
shown sources).  Pre-cutover it warns and performs its side effect; at or
after the removal version it raises the removal error and leaves the
state untouched. -/
def guardedSet (current : Version) (rec : DeprecationRecord)
    (apply : σ → σ) (st : σ) : CallResult Unit × σ :=
  if Version.lt current rec.removal then
    ({ notices := [rec.message], outcome := .ok () }, apply st)
  else
    ({ notices := [], outcome := .error (errorOf rec.category) }, st)

/-- Version 0.5.0, the cutover of the oldest deprecations in the tests. -/
def v050 : Version := ⟨0, 5, 0⟩

/-- Version 0.6.0. -/
def v060 : Version := ⟨0, 6, 0⟩

/-- Version 0.8.0. -/
def v080 : Version := ⟨0, 8, 0⟩

/-- Modelled from the spec: record for the renamed filter function
`butter`, removed in 0.5.0 in favor of the verbose name (the filter
module is not among the shown sources; removal version and category from
`test_filter_deprecations`). -/
def butterRec : DeprecationRecord :=
  ⟨"butter", "This function will be deprecated",
   "This function will be deprecated in pyfar 0.5.0. Use butterworth instead",
   v050, .removedSymbol, "butterworth"⟩

/-- Modelled from the spec: record for `cheby1`, removed in 0.5.0. -/
def cheby1Rec : DeprecationRecord :=
  ⟨"cheby1", "This function will be deprecated",
   "This function will be deprecated in pyfar 0.5.0. Use chebyshev1 instead",
   v050, .removedSymbol, "chebyshev1"⟩

/-- Modelled from the spec: record for `cheby2`, removed in 0.5.0. -/
def cheby2Rec : DeprecationRecord :=
  ⟨"cheby2", "This function will be deprecated",
   "This function will be deprecated in pyfar 0.5.0. Use chebyshev2 instead",
   v050, .removedSymbol, "chebyshev2"⟩

/-- Modelled from the spec: record for `ellip`, removed in 0.5.0. -/
def ellipRec : DeprecationRecord :=
  ⟨"ellip", "This function will be deprecated",
   "This function will be deprecated in pyfar 0.5.0. Use elliptic instead",
   v050, .removedSymbol, "elliptic"⟩

/-- Modelled from the spec: record for `peq`, removed in 0.5.0 in favor of
`bell` (the test labels it "bell"). -/
def peqRec : DeprecationRecord :=
  ⟨"peq", "This function will be deprecated",
   "This function will be deprecated in pyfar 0.5.0. Use bell instead",
   v050, .removedSymbol, "bell"⟩

/-- The five renamed filter-construction records of
`test_filter_deprecations`. -/
def filterRecords : List DeprecationRecord :=
  [butterRec, cheby1Rec, cheby2Rec, ellipRec, peqRec]

/-- Modelled from the spec: record for `Coordinates.get_nearest_k`,
removed in 0.5.0 (`test_get_nearest_deprecations`; the Coordinates class
is not among the shown sources). -/
def getNearestKRec : DeprecationRecord :=
  ⟨"get_nearest_k", "This function will be deprecated",
   "This function will be deprecated in pyfar 0.5.0. Use find_nearest_k instead",
   v050, .removedSymbol, "find_nearest_k"⟩

/-- Modelled from the spec: record for the `xscale` plot parameter,
removed in 0.6.0 (`test_xscale_deprecation` matches the pattern below and
expects `AttributeError` after the cutover). -/
def xscaleRec : DeprecationRecord :=
  ⟨"xscale", "The xscale parameter will be removed",
   "The xscale parameter will be removed in pyfar 0.6.0 in favor of freq_scale",
   v060, .removedSymbol, "freq_scale"⟩

/-- Modelled from the spec: record for the spectrogram `yscale`
parameter, removed in 0.6.0 (`test_spectrogram_yscale_deprecation`). -/
def yscaleRec : DeprecationRecord :=
  ⟨"yscale", "The yscale parameter will be removed",
   "The yscale parameter will be removed in pyfar 0.6.0 in favor of freq_scale",
   v060, .removedSymbol, "freq_scale"⟩

/-- Modelled from the spec: record for the accepted value `unit=None` of
time-axis checks, removed in 0.6.0 with a `ValueError`
(`test__check_time_unit`). -/
def timeUnitNoneRec : DeprecationRecord :=
  ⟨"_check_time_unit unit=None", "unit=None will be deprecated",
   "unit=None will be deprecated in pyfar 0.6.0 in favor of unit=s",
   v060, .removedArgValue, "s"⟩

/-- Modelled from the spec: record for the `pad_zeros` mode values
`before` and `after`, removed in 0.8.0 with a `ValueError`
(`test_pad_zero_modi`). -/
def padZerosModesRec : DeprecationRecord :=
  ⟨"pad_zeros mode before/after",
   "Mode \"before\" and \"after\" will be renamed into",
   "Mode \"before\" and \"after\" will be renamed into \"beginning\" and \"end\" in pyfar 0.8.0",
   v080, .removedArgValue, "beginning/end"⟩

/-- Modelled from the spec: record for `Coordinates.get_cart`, removed in
0.8.0 (`test_deprecations_0_8_0`: the notice matches both "This function
will be" and "0.8.0", and the call raises `AttributeError` after the
cutover). -/
def getCartRec : DeprecationRecord :=
  ⟨"get_cart", "This function will be",
   "This function will be deprecated in pyfar 0.8.0 in favor of the cartesian property",
   v080, .removedSymbol, "cartesian"⟩

/-- Modelled from the spec: record for the `Coordinates.sh_order`
property getter, removed in 0.8.0 (`test_deprecations_0_8_0`). -/
def shOrderGetterRec : DeprecationRecord :=
  ⟨"sh_order", "This function will be",
   "This function will be deprecated in pyfar 0.8.0",
   v080, .removedSymbol, ""⟩

/-- Modelled from the spec: record for the `Coordinates.sh_order`
property setter, removed in 0.8.0
(`test_deprecations_0_8_0_set_sh_order`: the notice matches "This
function will be deprecated" and "0.8.0"; assignment raises
`AttributeError` after the cutover). -/
def shOrderSetterRec : DeprecationRecord :=
  ⟨"sh_order setter", "This function will be deprecated",
   "This function will be deprecated in pyfar 0.8.0",
   v080, .removedSymbol, ""⟩

/-- Modelled from the spec: record for `Signal.__len__`, removed in 0.8.0.
`test_signal_len` matches the notice against "len(Signal) will be
deprecated" and expects a `TypeError` containing "had no len()" after the
cutover, so its category is `removedLenSupport`, not `removedSymbol`. -/
def signalLenRec : DeprecationRecord :=
  ⟨"Signal.__len__", "len(Signal) will be deprecated",
   "len(Signal) will be deprecated in pyfar 0.8.0",
   v080, .removedLenSupport, ""⟩

/-- All guarded symbols modelled from the test suite. -/
def guardedSymbols : List DeprecationRecord :=
  filterRecords ++
  [getNearestKRec, xscaleRec, yscaleRec, timeUnitNoneRec, padZerosModesRec,
   getCartRec, shOrderGetterRec, shOrderSetterRec, signalLenRec]

/-- Zero padding of the signal data: `n` zeros at the start or the end. -/
def padZerosData (signal : List Int) (n : Nat) (atStart : Bool) : List Int :=
  if atStart then List.replicate n 0 ++ signal
  else signal ++ List.replicate n 0

/-- Modelled from the spec: `pf.dsp.pad_zeros` (not among the shown
sources).  The old mode values `before` and `after` pass through the
deprecation gate; the new names `beginning` and `end` are accepted
without a notice; anything else is rejected as an invalid value. -/
def pad_zeros (current : Version) (signal : List Int) (n : Nat)
    (mode : String) : CallResult (List Int) :=
  if mode = "before" then
    guardedCall current padZerosModesRec (padZerosData signal n true)
  else if mode = "after" then
    guardedCall current padZerosModesRec (padZerosData signal n false)
  else if mode = "beginning" then
    { notices := [], outcome := .ok (padZerosData signal n true) }
  else if mode = "end" then
    { notices := [], outcome := .ok (padZerosData signal n false) }
  else
    { notices := [], outcome := .error .invalidValue }

/-- Modelled from the spec: `pf.plot._utils._check_time_unit` (not among
the shown sources).  `unit=None` passes through the deprecation gate and
yields the default unit `s` pre-cutover; the explicit units are accepted;
anything else is rejected as an invalid value. -/
def check_time_unit (current : Version) (unit : Option String) :
    CallResult String :=
  match unit with
  | none => guardedCall current timeUnitNoneRec "s"
  | some u =>
    if u = "s" ∨ u = "ms" ∨ u = "mus" ∨ u = "samples" then
      { notices := [], outcome := .ok u }
    else
      { notices := [], outcome := .error .invalidValue }

/-- Coordinates state relevant to the `sh_order` setter: the stored
spherical-harmonic order. -/
structure CoordinatesState where
  sh_order : Option Nat
deriving DecidableEq, Repr

/-- Modelled from the spec: assignment to the deprecated
`Coordinates.sh_order` property (the Coordinates class is not among the
shown sources).  Pre-cutover it warns and stores the new order; at or
after 0.8.0 the setter is absent and assignment raises
`AttributeError`. -/
def set_sh_order (current : Version) (c : CoordinatesState) (order : Nat) :
    CallResult Unit × CoordinatesState :=
  guardedSet current shOrderSetterRec
    (fun st => { st with sh_order := some order }) c

/-- Modelled from the spec: a renamed filter-construction function (the
filter module is not among the shown sources).  Pre-cutover the
deprecated name forwards its arguments to the verbose-named replacement
and warns; post-cutover the name is absent. -/
def renamedFilter (current : Version) (rec : DeprecationRecord)
    (replacement : α → β) (args : α) : CallResult β :=
  guardedCall current rec (replacement args)

/-- Modelled from the spec: calling `len` on a Signal (the Signal class
is not among the shown sources).  Pre-cutover it warns and returns the
number of samples; at or after 0.8.0 `__len__` is gone and the call fails
with the `TypeError` carrying "had no len()". -/
def signal_len (current : Version) (samples : List Int) : CallResult Nat :=
  guardedCall current signalLenRec samples.length

/-- A sequence of `n` independent calls of the same guarded symbol; the
gate keeps no state between calls. -/
def callSequence (current : Version) (rec : DeprecationRecord) (normal : α) :
    Nat → List (CallResult α)
  | 0 => []
  | n + 1 => guardedCall current rec normal :: callSequence current rec normal n

/-- A Python value passed to a plot function: a pyfar `Signal` or any
other object.  Only the `isinstance(signal, Signal)` distinction matters
to the facade in `pyfar/plot/line.py`. -/
inductive PyObject where
  | signal (data : List Int) (samplingRate : Nat)
  | noneObj
  | str (s : String)
  | int (n : Int)
deriving DecidableEq, Repr

/-- The `isinstance(signal, Signal)` check of `pyfar/plot/line.py`. -/
def isSignalInstance : PyObject → Bool
  | .signal _ _ => true
  | _ => false

/-- An observable step a plot-facade function performs after its type
check: entering the style context, calling a private rendering routine,
tightening the layout, attaching the interaction controller. -/
inductive PlotEffect where
  | appliedStyle (style : String)
  | rendered (routine : String)
  | tightLayout
  | attachedInteraction (kind : String)
deriving DecidableEq, Repr

/-- The one error the facade raises itself. -/
inductive PlotError where
  | typeError (msg : String)
deriving DecidableEq, Repr

/-- Result of a facade call: the effects performed, in order, and either
the axes handle (opaque here: the backend owns rendering) or the raised
error. -/
structure PlotCall where
  effects : List PlotEffect
  result : Except PlotError Unit
deriving Repr

/-- The message of the type error of the facade, verbatim from
`pyfar/plot/line.py`. -/
def notSignalMsg : String := "Input data has to be of type: Signal."

namespace plot

/-- `pyfar.plot.line.time`: type check, then style context, `_line._time`,
`tight_layout`, `Interaction` of kind `LineXLin`. -/
def time (signal : PyObject) (style : String) : PlotCall :=
  if isSignalInstance signal then
    { effects := [.appliedStyle style, .rendered "_time", .tightLayout,
                  .attachedInteraction "LineXLin"],
      result := .ok () }
  else
    { effects := [], result := .error (.typeError notSignalMsg) }

/-- `pyfar.plot.line.time_dB`: type check, then style context,
`_line._time_dB` with the log arguments, `tight_layout`, `Interaction` of
kind `LineXLin`. -/
def time_dB (signal : PyObject) (logPre : Int) (logRef : Int)
    (style : String) : PlotCall :=
  if isSignalInstance signal then
    { effects := [.appliedStyle style, .rendered "_time_dB", .tightLayout,
                  .attachedInteraction "LineXLin"],
      result := .ok () }
  else
    { effects := [], result := .error (.typeError notSignalMsg) }

/-- `pyfar.plot.line.freq`: type check, then style context, `_line._freq`,
`tight_layout`, `Interaction` of kind `LineXLog`. -/
def freq (signal : PyObject) (logPre : Int) (logRef : Int)
    (style : String) : PlotCall :=
  if isSignalInstance signal then
    { effects := [.appliedStyle style, .rendered "_freq", .tightLayout,
                  .attachedInteraction "LineXLog"],
      result := .ok () }
  else
    { effects := [], result := .error (.typeError notSignalMsg) }

/-- `pyfar.plot.line.phase`: type check, then style context,
`_line._phase`, `tight_layout`, `Interaction` of kind `LineXLog`. -/
def phase (signal : PyObject) (deg : Bool) (unwrap : Bool)
    (style : String) : PlotCall :=
  if isSignalInstance signal then
    { effects := [.appliedStyle style, .rendered "_phase", .tightLayout,
                  .attachedInteraction "LineXLog"],
      result := .ok () }
  else
    { effects := [], result := .error (.typeError notSignalMsg) }

/-- `pyfar.plot.line.group_delay`: type check, then style context,
`_line._group_delay`, `tight_layout`, `Interaction` of kind `LineXLog`. -/
def group_delay (signal : PyObject) (style : String) : PlotCall :=
  if isSignalInstance signal then
    { effects := [.appliedStyle style, .rendered "_group_delay",
                  .tightLayout, .attachedInteraction "LineXLog"],
      result := .ok () }
  else
    { effects := [], result := .error (.typeError notSignalMsg) }

/-- `pyfar.plot.line.spectrogram`: type check, then style context,
`_line._spectrogram_cb` with the window arguments, `tight_layout`,
`Interaction` of kind `spectrogram`. -/
def spectrogram (signal : PyObject) (dB : Bool) (yscale : String)
    (window : String) (windowLength : Nat) (style : String) : PlotCall :=
  if isSignalInstance signal then
    { effects := [.appliedStyle style, .rendered "_spectrogram_cb",
                  .tightLayout, .attachedInteraction "spectrogram"],
      result := .ok () }
  else
    { effects := [], result := .error (.typeError notSignalMsg) }

/-- `pyfar.plot.line.freq_phase`: type check, then style context,
`_line._freq_phase`, `tight_layout`, `Interaction` of kind `LineXLog`. -/
def freq_phase (signal : PyObject) (logPre : Int) (logRef : Int)
    (deg : Bool) (unwrap : Bool) (style : String) : PlotCall :=
  if isSignalInstance signal then
    { effects := [.appliedStyle style, .rendered "_freq_phase",
                  .tightLayout, .attachedInteraction "LineXLog"],
      result := .ok () }
  else
    { effects := [], result := .error (.typeError notSignalMsg) }

/-- `pyfar.plot.line.freq_group_delay`: type check, then style context,
`_line._freq_group_delay`, `tight_layout`, `Interaction` of kind
`LineXLog`. -/
def freq_group_delay (signal : PyObject) (logPre : Int) (logRef : Int)
    (style : String) : PlotCall :=
  if isSignalInstance signal then
    { effects := [.appliedStyle style, .rendered "_freq_group_delay",
                  .tightLayout, .attachedInteraction "LineXLog"],
      result := .ok () }
  else
    { effects := [], result := .error (.typeError notSignalMsg) }

/-- `pyfar.plot.line.custom_subplots`: type check, then style context,
`_line._custom_subplots` over the list of plot handles, `tight_layout`;
no interaction controller is attached here. -/
def custom_subplots (signal : PyObject) (plots : List String)
    (style : String) : PlotCall :=
  if isSignalInstance signal then
    { effects := [.appliedStyle style, .rendered "_custom_subplots",
                  .tightLayout],
      result := .ok () }
  else
    { effects := [], result := .error (.typeError notSignalMsg) }

end plot

instance {ε α : Type} [DecidableEq ε] [DecidableEq α] :
    DecidableEq (Except ε α) := fun a b =>
  match a, b with
  | .ok x, .ok y =>
    if h : x = y then .isTrue (by rw [h]) else .isFalse (by simp [h])
  | .error x, .error y =>
    if h : x = y then .isTrue (by rw [h]) else .isFalse (by simp [h])
  | .ok _, .error _ => .isFalse (fun h => Except.noConfusion h)
  | .error _, .ok _ => .isFalse (fun h => Except.noConfusion h)

/-- If the gate already refuses at version `a`, it refuses at every later
version: the strict precedence test stays false. -/
lemma Version.lt_false_mono (a b r : Version) (h1 : Version.lt a r = false)
    (h2 : Version.le a b = true) : Version.lt b r = false := by
  obtain ⟨a1, a2, a3⟩ := a
  obtain ⟨b1, b2, b3⟩ := b
  obtain ⟨r1, r2, r3⟩ := r
  simp [Version.lt, Version.le, Version.mk.injEq] at *
  omega

/-- The notice text of every guarded record matches its documented pattern. -/
lemma guarded_patterns_match :
    guardedSymbols.all (fun r => matchesPattern r.message r.pattern) = true := by
  decide

/-- Every renamed-filter record is removed in 0.5.0, is a whole-symbol
removal, and its notice names its verbose replacement. -/
lemma filter_records_shape :
    filterRecords.all (fun r =>
      r.removal = v050 && r.category = DeprecationCategory.removedSymbol &&
        matchesPattern r.message r.replacement) = true := by
  decide

/-- Every position of a call sequence holds the very same call result. -/
lemma callSequence_get (current : Version) (rec : DeprecationRecord)
    (normal : α) :
    ∀ n i, i < n →
      (callSequence current rec normal n)[i]? =
        some (guardedCall current rec normal) := by
  intro n
  induction n with
  | zero => intro i hi; omega
  | succ m ih =>
    intro i hi
    cases i with
    | zero => simp [callSequence]
    | succ j =>
      have hj : j < m := by omega
      simpa [callSequence] using ih j hj

/-- C1: for every guarded symbol S with removal-version R, calling S while
the running version is strictly below R emits exactly one notice whose
text matches the documented pattern of S, and the call still performs the
normal effect of S unaltered. -/
theorem C1_preCutover_warns_once_and_executes
    (rec : DeprecationRecord) (hrec : rec ∈ guardedSymbols)
    (current : Version) (hpre : Version.lt current rec.removal = true)
    {α : Type} (normal : α) :
    (guardedCall current rec normal).notices = [rec.message] ∧
    matchesPattern rec.message rec.pattern = true ∧
    (guardedCall current rec normal).outcome = Except.ok normal := by
  refine ⟨by simp [guardedCall, hpre], ?_, by simp [guardedCall, hpre]⟩
  exact List.all_eq_true.mp guarded_patterns_match rec hrec

/-- Witness for C1 at the pad_zeros mode record and version 0.7.0. -/
theorem C1_witness :
    padZerosModesRec ∈ guardedSymbols ∧
    Version.lt ⟨0, 7, 0⟩ padZerosModesRec.removal = true ∧
    ((guardedCall ⟨0, 7, 0⟩ padZerosModesRec (42 : Nat)).notices =
        [padZerosModesRec.message] ∧
      matchesPattern padZerosModesRec.message padZerosModesRec.pattern = true ∧
      (guardedCall ⟨0, 7, 0⟩ padZerosModesRec (42 : Nat)).outcome =
        Except.ok 42) :=
  ⟨by decide, by decide,
   C1_preCutover_warns_once_and_executes padZerosModesRec (by decide)
     ⟨0, 7, 0⟩ (by decide) 42⟩

/-- C2: for every guarded symbol S, calling S while the running version is
at or above its removal-version raises the removal error of the category of S
(member-not-found for removed symbols, invalid-value for removed argument
values), emits no notice, performs no side effect on the state, and the
error is exactly the error of the category, propagated unmodified. -/
theorem C2_postCutover_raises_and_no_side_effect
    (rec : DeprecationRecord) (hrec : rec ∈ guardedSymbols)
    (current : Version) (hpost : Version.lt current rec.removal = false)
    {α σ : Type} (normal : α) (apply : σ → σ) (st : σ) :
    (guardedCall current rec normal).outcome =
      Except.error (errorOf rec.category) ∧
    (guardedCall current rec normal).notices = [] ∧
    (guardedSet current rec apply st).2 = st ∧
    (guardedSet current rec apply st).1.outcome =
      Except.error (errorOf rec.category) ∧
    errorOf .removedSymbol = .memberNotFound ∧
    errorOf .removedArgValue = .invalidValue := by
  refine ⟨by simp [guardedCall, hpost], by simp [guardedCall, hpost],
    by simp [guardedSet, hpost], by simp [guardedSet, hpost], rfl, rfl⟩

/-- Witness for C2 at the get_cart record and version 0.8.0. -/
theorem C2_witness :
    getCartRec ∈ guardedSymbols ∧
    Version.lt ⟨0, 8, 0⟩ getCartRec.removal = false ∧
    ((guardedCall ⟨0, 8, 0⟩ getCartRec (5 : Nat)).outcome =
        Except.error (errorOf getCartRec.category) ∧
      (guardedCall ⟨0, 8, 0⟩ getCartRec (5 : Nat)).notices = [] ∧
      (guardedSet ⟨0, 8, 0⟩ getCartRec (fun n => n + 1) (0 : Nat)).2 = 0 ∧
      (guardedSet ⟨0, 8, 0⟩ getCartRec (fun n => n + 1) (0 : Nat)).1.outcome =
        Except.error (errorOf getCartRec.category) ∧
      errorOf .removedSymbol = .memberNotFound ∧
      errorOf .removedArgValue = .invalidValue) :=
  ⟨by decide, by decide,
   C2_postCutover_raises_and_no_side_effect getCartRec (by decide)
     ⟨0, 8, 0⟩ (by decide) 5 (fun n => n + 1) 0⟩

/-- Counterexample to C3 as stated: the `len` support of Signal is guarded by
the tests as a whole removal, yet at version 0.8.0 the tests demand a
`TypeError` containing "had no len()", not a member-not-found error. -/
theorem C3_counterexample :
    signalLenRec ∈ guardedSymbols ∧
    Version.lt v080 signalLenRec.removal = false ∧
    (signal_len v080 [1, 2, 3]).outcome ≠
      Except.error RemovalError.memberNotFound ∧
    (signal_len v080 [1, 2, 3]).outcome =
      Except.error RemovalError.typeErrorNoLen := by
  refine ⟨by decide, by decide, ?_, by decide⟩
  decide

/-- C3 amended: every wholly-removed guarded function, method or property
fails post-cutover with the member-not-found error; the `len` support of
Signal is the exception, failing with the `TypeError` carrying "had no
len()". -/
theorem C3_amended_member_not_found
    (rec : DeprecationRecord) (hrec : rec ∈ guardedSymbols)
    (hcat : rec.category = .removedSymbol)
    (current : Version) (hpost : Version.lt current rec.removal = false)
    {α : Type} (normal : α) (samples : List Int)
    (clen : Version) (hlen : Version.lt clen v080 = false) :
    (guardedCall current rec normal).outcome =
      Except.error RemovalError.memberNotFound ∧
    (signal_len clen samples).outcome =
      Except.error RemovalError.typeErrorNoLen ∧
    matchesPattern (errorText .typeErrorNoLen) "had no len()" = true := by
  refine ⟨by simp [guardedCall, hpost, hcat, errorOf], ?_, by decide⟩
  simp [signal_len, guardedCall, signalLenRec, hlen, errorOf]

/-- Witness for C3 amended: the butter record (removal 0.5.0) already
fails member-not-found at running version 0.6.0, and Signal len fails
with the TypeError at 0.8.0. -/
theorem C3_amended_witness :
    butterRec ∈ guardedSymbols ∧
    butterRec.category = DeprecationCategory.removedSymbol ∧
    Version.lt ⟨0, 6, 0⟩ butterRec.removal = false ∧
    Version.lt ⟨0, 8, 0⟩ v080 = false ∧
    ((guardedCall ⟨0, 6, 0⟩ butterRec (7 : Nat)).outcome =
        Except.error RemovalError.memberNotFound ∧
      (signal_len ⟨0, 8, 0⟩ [1, 2, 3]).outcome =
        Except.error RemovalError.typeErrorNoLen ∧
      matchesPattern (errorText .typeErrorNoLen) "had no len()" = true) :=
  ⟨by decide, by decide, by decide, by decide,
   C3_amended_member_not_found butterRec (by decide) (by decide)
     ⟨0, 6, 0⟩ (by decide) 7 [1, 2, 3] ⟨0, 8, 0⟩ (by decide)⟩

/-- C4: once the running version reaches the removal-version, supplying a
removed argument value (pad_zeros modes "before"/"after", unit=None)
raises the invalid-value error, distinct from member-not-found, while the
function itself stays callable with the new argument values. -/
theorem C4_removed_arg_values
    (c8 c6 : Version) (h8 : Version.lt c8 v080 = false)
    (h6 : Version.lt c6 v060 = false) (signal : List Int) (n : Nat) :
    (pad_zeros c8 signal n "before").outcome =
      Except.error RemovalError.invalidValue ∧
    (pad_zeros c8 signal n "after").outcome =
      Except.error RemovalError.invalidValue ∧
    (pad_zeros c8 signal n "beginning").outcome =
      Except.ok (padZerosData signal n true) ∧
    (pad_zeros c8 signal n "end").outcome =
      Except.ok (padZerosData signal n false) ∧
    (check_time_unit c6 none).outcome =
      Except.error RemovalError.invalidValue ∧
    (check_time_unit c6 (some "s")).outcome = Except.ok "s" ∧
    RemovalError.invalidValue ≠ RemovalError.memberNotFound := by
  refine ⟨?_, ?_, by simp [pad_zeros], by simp [pad_zeros], ?_,
    by simp [check_time_unit], by decide⟩
  · simp [pad_zeros, guardedCall, padZerosModesRec, h8, errorOf]
  · simp [pad_zeros, guardedCall, padZerosModesRec, h8, errorOf]
  · simp [check_time_unit, guardedCall, timeUnitNoneRec, h6, errorOf]

/-- Witness for C4 at versions 0.8.0 and 0.6.0. -/
theorem C4_witness :
    Version.lt ⟨0, 8, 0⟩ v080 = false ∧
    Version.lt ⟨0, 6, 0⟩ v060 = false ∧
    ((pad_zeros ⟨0, 8, 0⟩ [1] 5 "before").outcome =
        Except.error RemovalError.invalidValue ∧
      (pad_zeros ⟨0, 8, 0⟩ [1] 5 "after").outcome =
        Except.error RemovalError.invalidValue ∧
      (pad_zeros ⟨0, 8, 0⟩ [1] 5 "beginning").outcome =
        Except.ok (padZerosData [1] 5 true) ∧
      (pad_zeros ⟨0, 8, 0⟩ [1] 5 "end").outcome =
        Except.ok (padZerosData [1] 5 false) ∧
      (check_time_unit ⟨0, 6, 0⟩ none).outcome =
        Except.error RemovalError.invalidValue ∧
      (check_time_unit ⟨0, 6, 0⟩ (some "s")).outcome = Except.ok "s" ∧
      RemovalError.invalidValue ≠ RemovalError.memberNotFound) :=
  ⟨by decide, by decide,
   C4_removed_arg_values ⟨0, 8, 0⟩ ⟨0, 6, 0⟩ (by decide) (by decide) [1] 5⟩

/-- C5: the deprecated sh_order setter warns and still stores the value
pre-cutover; at or after 0.8.0 the assignment raises the attribute-style
error and leaves the state untouched — never a silent no-op. -/
theorem C5_sh_order_setter
    (cpre cpost : Version) (hpre : Version.lt cpre v080 = true)
    (hpost : Version.lt cpost v080 = false)
    (c : CoordinatesState) (order : Nat) :
    (set_sh_order cpre c order).1.notices = [shOrderSetterRec.message] ∧
    (set_sh_order cpre c order).1.outcome = Except.ok () ∧
    (set_sh_order cpre c order).2.sh_order = some order ∧
    (set_sh_order cpost c order).1.outcome =
      Except.error RemovalError.memberNotFound ∧
    (set_sh_order cpost c order).2 = c := by
  refine ⟨?_, ?_, ?_, ?_, ?_⟩ <;>
    simp [set_sh_order, guardedSet, shOrderSetterRec, hpre, hpost, errorOf]

/-- Witness for C5 at versions 0.7.0 and 0.8.0. -/
theorem C5_witness :
    Version.lt ⟨0, 7, 0⟩ v080 = true ∧
    Version.lt ⟨0, 8, 0⟩ v080 = false ∧
    ((set_sh_order ⟨0, 7, 0⟩ ⟨none⟩ 1).1.notices =
        [shOrderSetterRec.message] ∧
      (set_sh_order ⟨0, 7, 0⟩ ⟨none⟩ 1).1.outcome = Except.ok () ∧
      (set_sh_order ⟨0, 7, 0⟩ ⟨none⟩ 1).2.sh_order = some 1 ∧
      (set_sh_order ⟨0, 8, 0⟩ ⟨none⟩ 1).1.outcome =
        Except.error RemovalError.memberNotFound ∧
      (set_sh_order ⟨0, 8, 0⟩ ⟨none⟩ 1).2 = ⟨none⟩) :=
  ⟨by decide, by decide,
   C5_sh_order_setter ⟨0, 7, 0⟩ ⟨0, 8, 0⟩ (by decide) (by decide) ⟨none⟩ 1⟩

/-- C6: each renamed filter-construction function, called pre-cutover,
returns exactly the result of its verbose-named replacement on the same
arguments and emits a notice naming the replacement; at or after 0.5.0,
accessing it yields the member-not-found error. -/
theorem C6_renamed_filters
    (rec : DeprecationRecord) (hrec : rec ∈ filterRecords)
    {α β : Type} (replacement : α → β) (args : α)
    (cpre cpost : Version) (hpre : Version.lt cpre v050 = true)
    (hpost : Version.lt cpost v050 = false) :
    (renamedFilter cpre rec replacement args).outcome =
      Except.ok (replacement args) ∧
    (renamedFilter cpre rec replacement args).notices = [rec.message] ∧
    matchesPattern rec.message rec.replacement = true ∧
    (renamedFilter cpost rec replacement args).outcome =
      Except.error RemovalError.memberNotFound := by
  have h := List.all_eq_true.mp filter_records_shape rec hrec
  simp only [Bool.and_eq_true, decide_eq_true_eq] at h
  obtain ⟨⟨hrem, hcat⟩, hrepl⟩ := h
  refine ⟨?_, ?_, hrepl, ?_⟩
  · simp [renamedFilter, guardedCall, hrem, hpre]
  · simp [renamedFilter, guardedCall, hrem, hpre]
  · simp [renamedFilter, guardedCall, hrem, hcat, hpost, errorOf]

/-- Witness for C6 at the butter record with a concrete replacement. -/
theorem C6_witness :
    butterRec ∈ filterRecords ∧
    Version.lt ⟨0, 4, 0⟩ v050 = true ∧
    Version.lt ⟨0, 5, 0⟩ v050 = false ∧
    ((renamedFilter ⟨0, 4, 0⟩ butterRec (fun n => n + 1) (3 : Nat)).outcome =
        Except.ok 4 ∧
      (renamedFilter ⟨0, 4, 0⟩ butterRec (fun n => n + 1) (3 : Nat)).notices =
        [butterRec.message] ∧
      matchesPattern butterRec.message butterRec.replacement = true ∧
      (renamedFilter ⟨0, 5, 0⟩ butterRec (fun n => n + 1) (3 : Nat)).outcome =
        Except.error RemovalError.memberNotFound) :=
  ⟨by decide, by decide, by decide,
   C6_renamed_filters butterRec (by decide) (fun n => n + 1) 3
     ⟨0, 4, 0⟩ ⟨0, 5, 0⟩ (by decide) (by decide)⟩

/-- C7: a guarded symbol called repeatedly pre-cutover emits the notice on
every call: the nth call of the sequence is the very same call result as
the first, with the notice emitted each time — no suppression. -/
theorem C7_repeated_calls_each_warn
    (rec : DeprecationRecord) (hrec : rec ∈ guardedSymbols)
    (current : Version) (hpre : Version.lt current rec.removal = true)
    {α : Type} (normal : α) (n i : Nat) (hi : i < n) :
    (callSequence current rec normal n)[i]? =
      some (guardedCall current rec normal) ∧
    (guardedCall current rec normal).notices = [rec.message] := by
  exact ⟨callSequence_get current rec normal n i hi,
    by simp [guardedCall, hpre]⟩

/-- Witness for C7: five calls of get_cart at version 0.7.0, third call. -/
theorem C7_witness :
    getCartRec ∈ guardedSymbols ∧
    Version.lt ⟨0, 7, 0⟩ getCartRec.removal = true ∧
    (2 : Nat) < 5 ∧
    ((callSequence ⟨0, 7, 0⟩ getCartRec (0 : Nat) 5)[2]? =
        some (guardedCall ⟨0, 7, 0⟩ getCartRec 0) ∧
      (guardedCall ⟨0, 7, 0⟩ getCartRec (0 : Nat)).notices =
        [getCartRec.message]) :=
  ⟨by decide, by decide, by decide,
   C7_repeated_calls_each_warn getCartRec (by decide) ⟨0, 7, 0⟩ (by decide)
     0 5 2 (by decide)⟩

/-- C8: the decision of the gate is a pure function of the running version and
the removal version under major.minor.patch precedence, it alone decides
whether a guarded call warns-and-executes or refuses, and it is monotone:
once it refuses at some version it refuses at every later version. -/
theorem C8_gate_pure_and_monotone
    (current current2 removal : Version)
    (hrefuse : gate current removal = GateDecision.refuse)
    (hle : Version.le current current2 = true) :
    gate current2 removal = GateDecision.refuse ∧
    ∀ rec : DeprecationRecord, ∀ normal : Nat,
      ((guardedCall current2 rec normal).outcome = Except.ok normal ↔
        gate current2 rec.removal = GateDecision.warnExecute) := by
  have hlt : Version.lt current removal = false := by
    by_cases h : Version.lt current removal = true
    · simp [gate, h] at hrefuse
    · simpa using h
  have hlt2 := Version.lt_false_mono current current2 removal hlt hle
  refine ⟨by simp [gate, hlt2], ?_⟩
  intro rec normal
  by_cases h : Version.lt current2 rec.removal = true
  · simp [guardedCall, gate, h]
  · simp at h
    simp [guardedCall, gate, h]

/-- Witness for C8: refusal at 0.8.0 persists at 1.2.3. -/
theorem C8_witness :
    gate ⟨0, 8, 0⟩ v080 = GateDecision.refuse ∧
    Version.le ⟨0, 8, 0⟩ ⟨1, 2, 3⟩ = true ∧
    (gate ⟨1, 2, 3⟩ v080 = GateDecision.refuse ∧
      ∀ rec : DeprecationRecord, ∀ normal : Nat,
        ((guardedCall ⟨1, 2, 3⟩ rec normal).outcome = Except.ok normal ↔
          gate ⟨1, 2, 3⟩ rec.removal = GateDecision.warnExecute)) :=
  ⟨by decide, by decide,
   C8_gate_pure_and_monotone ⟨0, 8, 0⟩ ⟨1, 2, 3⟩ v080 (by decide) (by decide)⟩

/-- C9: every public plot-facade function of `pyfar/plot/line.py`, given
an input that is not a Signal instance, raises the TypeError with message
"Input data has to be of type: Signal." and performs no effect first — no
style applied, no rendering delegated, no interaction attached. -/
theorem C9_plot_facade_type_check
    (x : PyObject) (hx : isSignalInstance x = false)
    (style yscale window : String) (logPre logRef : Int)
    (deg unwrap dB : Bool) (wl : Nat) (plots : List String) :
    plot.time x style =
      ⟨[], Except.error (.typeError notSignalMsg)⟩ ∧
    plot.time_dB x logPre logRef style =
      ⟨[], Except.error (.typeError notSignalMsg)⟩ ∧
    plot.freq x logPre logRef style =
      ⟨[], Except.error (.typeError notSignalMsg)⟩ ∧
    plot.phase x deg unwrap style =
      ⟨[], Except.error (.typeError notSignalMsg)⟩ ∧
    plot.group_delay x style =
      ⟨[], Except.error (.typeError notSignalMsg)⟩ ∧
    plot.spectrogram x dB yscale window wl style =
      ⟨[], Except.error (.typeError notSignalMsg)⟩ ∧
    plot.freq_phase x logPre logRef deg unwrap style =
      ⟨[], Except.error (.typeError notSignalMsg)⟩ ∧
    plot.freq_group_delay x logPre logRef style =
      ⟨[], Except.error (.typeError notSignalMsg)⟩ ∧
    plot.custom_subplots x plots style =
      ⟨[], Except.error (.typeError notSignalMsg)⟩ := by
  refine ⟨?_, ?_, ?_, ?_, ?_, ?_, ?_, ?_, ?_⟩ <;>
    simp [plot.time, plot.time_dB, plot.freq, plot.phase, plot.group_delay,
      plot.spectrogram, plot.freq_phase, plot.freq_group_delay,
      plot.custom_subplots, hx]

/-- Witness for C9 at the Python None object. -/
theorem C9_witness :
    isSignalInstance PyObject.noneObj = false ∧
    (plot.time PyObject.noneObj "light" =
        ⟨[], Except.error (.typeError notSignalMsg)⟩ ∧
      plot.time_dB PyObject.noneObj 20 1 "light" =
        ⟨[], Except.error (.typeError notSignalMsg)⟩ ∧
      plot.freq PyObject.noneObj 20 1 "light" =
        ⟨[], Except.error (.typeError notSignalMsg)⟩ ∧
      plot.phase PyObject.noneObj false false "light" =
        ⟨[], Except.error (.typeError notSignalMsg)⟩ ∧
      plot.group_delay PyObject.noneObj "light" =
        ⟨[], Except.error (.typeError notSignalMsg)⟩ ∧
      plot.spectrogram PyObject.noneObj true "linear" "hann" 1024 "light" =
        ⟨[], Except.error (.typeError notSignalMsg)⟩ ∧
      plot.freq_phase PyObject.noneObj 20 1 false false "light" =
        ⟨[], Except.error (.typeError notSignalMsg)⟩ ∧
      plot.freq_group_delay PyObject.noneObj 20 1 "light" =
        ⟨[], Except.error (.typeError notSignalMsg)⟩ ∧
      plot.custom_subplots PyObject.noneObj ["time", "freq"] "light" =
        ⟨[], Except.error (.typeError notSignalMsg)⟩) :=
  ⟨by decide,
   C9_plot_facade_type_check PyObject.noneObj (by decide) "light" "linear"
     "hann" 20 1 false false true 1024 ["time", "freq"]⟩

/-- C10: removing the `len` support of Signal is a third error shape: at or
after 0.8.0, `len(Signal)` fails with the TypeError whose text contains
"had no len()" — neither member-not-found nor invalid-value — while
pre-cutover it warns with a notice matching "len(Signal) will be
deprecated" and still returns the sample count. -/
theorem C10_signal_len_third_error_shape
    (cpre cpost : Version) (hpre : Version.lt cpre v080 = true)
    (hpost : Version.lt cpost v080 = false) (samples : List Int) :
    (signal_len cpre samples).outcome = Except.ok samples.length ∧
    (signal_len cpre samples).notices = [signalLenRec.message] ∧
    matchesPattern signalLenRec.message "len(Signal) will be deprecated" =
      true ∧
    (signal_len cpost samples).outcome =
      Except.error RemovalError.typeErrorNoLen ∧
    matchesPattern (errorText .typeErrorNoLen) "had no len()" = true ∧
    RemovalError.typeErrorNoLen ≠ RemovalError.memberNotFound ∧
    RemovalError.typeErrorNoLen ≠ RemovalError.invalidValue := by
  refine ⟨?_, ?_, by decide, ?_, by decide, by decide, by decide⟩ <;>
    simp [signal_len, guardedCall, signalLenRec, hpre, hpost, errorOf]

/-- Witness for C10 at versions 0.7.0 and 0.8.0. -/
theorem C10_witness :
    Version.lt ⟨0, 7, 0⟩ v080 = true ∧
    Version.lt ⟨0, 8, 0⟩ v080 = false ∧
    ((signal_len ⟨0, 7, 0⟩ [1, 2, 3]).outcome = Except.ok 3 ∧
      (signal_len ⟨0, 7, 0⟩ [1, 2, 3]).notices = [signalLenRec.message] ∧
      matchesPattern signalLenRec.message "len(Signal) will be deprecated" =
        true ∧
      (signal_len ⟨0, 8, 0⟩ [1, 2, 3]).outcome =
        Except.error RemovalError.typeErrorNoLen ∧
      matchesPattern (errorText .typeErrorNoLen) "had no len()" = true ∧
      RemovalError.typeErrorNoLen ≠ RemovalError.memberNotFound ∧
      RemovalError.typeErrorNoLen ≠ RemovalError.invalidValue) :=
  ⟨by decide, by decide,
   C10_signal_len_third_error_shape ⟨0, 7, 0⟩ ⟨0, 8, 0⟩ (by decide)
     (by decide) [1, 2, 3]⟩

end Pyfar
